import Mathlib

/-!
Verification of the client-side behavior implemented in src/js/script.js of
the NaveenPrasad_Portfolio repository.

The file shallowly embeds the components the specification talks about:

* the theme coordinator (functions initTheme and updateThemeIcon of the
  source): a state machine over the closure variable currentTheme, the
  data-theme attribute of the document, the localStorage slot under the key
  theme, and the toggle icon glyph;
* the active-navigation highlighter (function initActiveNavHighlight): a
  pure recomputation of the active classes of the navigation links from the
  scroll offset and the section geometry;
* the contact-form validator (functions initFormValidation and
  isValidEmail): a pure function from the four submitted fields to the
  validity flag and the ordered list of violation messages, and the
  submission step updating the form state;
* the counter animation (function animateCounter inside
  initCounterAnimation): parsing of the target and suffix from the element
  text and the setInterval tick as a step function on a counter state, with
  the NaN value of parseInt on a digit-free text modelled by an absent
  target;
* the one-shot visibility observers (initScrollAnimations and the observer
  of initCounterAnimation): per-element step functions over intersection
  notifications.

JavaScript string primitives used by the source (trim, per-character split,
the test of the email regular expression) are modelled by structural
functions on the character list of the string, so that every definition
evaluates inside the kernel.
-/

namespace Portfolio

/-! ### JavaScript string primitives -/

/-- Model of the JavaScript method trim: removes whitespace characters from
both ends of the string. -/
def jsTrim (s : String) : String :=
  String.mk (((s.toList.dropWhile Char.isWhitespace).reverse.dropWhile
    Char.isWhitespace).reverse)

/-- Splits a character list at every occurrence of the separator, keeping
empty segments, as the JavaScript split does. -/
def splitOnChar (sep : Char) : List Char → List (List Char)
  | [] => [[]]
  | c :: cs =>
    let r := splitOnChar sep cs
    if c = sep then [] :: r
    else
      match r with
      | [] => [[c]]
      | h :: t => (c :: h) :: t

/-! ### Theme coordinator: initTheme, updateThemeIcon (script.js lines 8-44) -/

/-- State owned by initTheme: the closure variable currentTheme, the
data-theme attribute currently set on the document root (displayed), the
localStorage value stored under the key theme (none models a missing key),
and the text of the theme icon. -/
structure ThemeState where
  currentTheme : String
  displayed : String
  stored : Option String
  icon : String
deriving DecidableEq, Repr

/-- updateThemeIcon: sun glyph when the theme is dark, moon glyph
otherwise. -/
def updateThemeIcon (theme : String) : String :=
  if theme = "dark" then "☀️" else "🌙"

/-- JavaScript truthiness of the value read from localStorage: null (here
none) and the empty string are falsy. Used for savedTheme || default and
for the negated localStorage.getItem test of the change listener. -/
def storedFalsy (stored : Option String) : Bool :=
  stored.getD "" == ""

/-- The expression savedTheme || fallback of line 15: the fallback is taken
when the saved value is absent or the empty string. -/
def jsOrDefault (saved : Option String) (fallback : String) : String :=
  match saved with
  | none => fallback
  | some s => if s = "" then fallback else s

/-- Lines 8-19 of initTheme: resolve the initial theme from the persisted
value and the system dark preference, apply it to the document and to the
icon. The stored slot is left as it was read. -/
def initTheme (saved : Option String) (prefersDark : Bool) : ThemeState :=
  let currentTheme := jsOrDefault saved (if prefersDark then "dark" else "light")
  { currentTheme := currentTheme
    displayed := currentTheme
    stored := saved
    icon := updateThemeIcon currentTheme }

/-- Events the theme coordinator reacts to after initialization: a click on
the theme toggle, and a system preference change notification carrying the
new value of the dark media query flag. -/
inductive ThemeEvent where
  | toggleClick : ThemeEvent
  | systemChange (isDark : Bool) : ThemeEvent

/-- Lines 22-36: the click listener flips currentTheme, applies and
persists it; the media-query change listener, when no theme value is
persisted, applies the system theme to the document and the icon without
touching currentTheme or the store. -/
def themeStep (s : ThemeState) : ThemeEvent → ThemeState
  | .toggleClick =>
    let t := if s.currentTheme = "light" then "dark" else "light"
    { currentTheme := t, displayed := t, stored := some t, icon := updateThemeIcon t }
  | .systemChange m =>
    if storedFalsy s.stored then
      let t := if m then "dark" else "light"
      { s with displayed := t, icon := updateThemeIcon t }
    else s

/-- Folding a list of events through the theme coordinator. -/
def themeRun (s : ThemeState) (evs : List ThemeEvent) : ThemeState :=
  evs.foldl themeStep s

theorem themeRun_nil (s : ThemeState) : themeRun s [] = s := rfl

theorem themeRun_cons (s : ThemeState) (e : ThemeEvent) (evs : List ThemeEvent) :
    themeRun s (e :: evs) = themeRun (themeStep s e) evs := rfl

/-- After a toggle click the store holds the literal light or dark. -/
theorem stored_valid_after_click (s : ThemeState) :
    (themeStep s .toggleClick).stored = some "light" ∨
      (themeStep s .toggleClick).stored = some "dark" := by
  by_cases h : s.currentTheme = "light" <;> simp [themeStep, h]

/-- A store holding a literal light or dark stays in that set under every
event. -/
theorem stored_valid_preserved (s : ThemeState) (e : ThemeEvent)
    (h : s.stored = some "light" ∨ s.stored = some "dark") :
    (themeStep s e).stored = some "light" ∨ (themeStep s e).stored = some "dark" := by
  cases e with
  | toggleClick => exact stored_valid_after_click s
  | systemChange m =>
    rcases h with h | h <;> simp [themeStep, storedFalsy, h]

/-- A store holding a literal light or dark stays in that set under every
event sequence. -/
theorem stored_valid_run (evs : List ThemeEvent) :
    ∀ s : ThemeState, s.stored = some "light" ∨ s.stored = some "dark" →
      (themeRun s evs).stored = some "light" ∨ (themeRun s evs).stored = some "dark" := by
  induction evs with
  | nil => intro s h; exact h
  | cons e evs ih =>
    intro s h
    rw [themeRun_cons]
    exact ih _ (stored_valid_preserved s e h)

/-- When the store holds a truthy value, a system-preference change leaves
the whole state unchanged. -/
theorem systemChange_noop (s : ThemeState) (m : Bool)
    (h : s.stored = some "light" ∨ s.stored = some "dark") :
    themeStep s (.systemChange m) = s := by
  rcases h with h | h <;> simp [themeStep, storedFalsy, h]

/-- C1: at startup the displayed theme equals the persisted theme value
when one is present (any truthy string, in particular light or dark),
otherwise dark exactly when the system reports a dark preference and light
otherwise; in particular, with no persisted value and a dark system
preference, the initial theme is dark. -/
theorem initTheme_initial_resolution :
    (∀ (v : String) (prefersDark : Bool), v ≠ "" →
      (initTheme (some v) prefersDark).displayed = v) ∧
    (∀ prefersDark : Bool,
      (initTheme none prefersDark).displayed =
        (if prefersDark then "dark" else "light")) ∧
    (initTheme none true).displayed = "dark" := by
  refine ⟨?_, ?_, rfl⟩
  · intro v prefersDark hv
    simp [initTheme, jsOrDefault, hv]
  · intro prefersDark
    rfl

/-- Witness for the hypothesis of the first part of C1, at the persisted
value light. -/
theorem initTheme_initial_resolution_witness :
    "light" ≠ "" ∧ (initTheme (some "light") true).displayed = "light" :=
  ⟨by decide, initTheme_initial_resolution.1 "light" true (by decide)⟩

/-- C5: from any state whose in-memory current theme is light or dark, two
toggle clicks bring the displayed theme, the in-memory theme and the
persisted value back to the original current theme. -/
theorem themeToggle_roundtrip (s : ThemeState)
    (h : s.currentTheme = "light" ∨ s.currentTheme = "dark") :
    (themeRun s [.toggleClick, .toggleClick]).displayed = s.currentTheme ∧
    (themeRun s [.toggleClick, .toggleClick]).currentTheme = s.currentTheme ∧
    (themeRun s [.toggleClick, .toggleClick]).stored = some s.currentTheme := by
  rcases h with h | h <;>
    simp [themeRun, themeStep, h]

/-- Witness for C5 at a concrete light-mode state. -/
theorem themeToggle_roundtrip_witness :
    ((⟨"light", "light", none, "🌙"⟩ : ThemeState).currentTheme = "light" ∨
      (⟨"light", "light", none, "🌙"⟩ : ThemeState).currentTheme = "dark") ∧
    (themeRun ⟨"light", "light", none, "🌙"⟩
        [.toggleClick, .toggleClick]).displayed = "light" :=
  ⟨Or.inl rfl,
    (themeToggle_roundtrip ⟨"light", "light", none, "🌙"⟩ (Or.inl rfl)).1⟩

/-- C6: once a toggle click has happened, the persisted value is set, and
every later system-preference change leaves the whole theme state (hence
the displayed theme and the stored preference) unchanged, whatever events
happen in between. -/
theorem persisted_preference_overrides_system (s : ThemeState)
    (evs : List ThemeEvent) (m : Bool) :
    themeStep (themeRun (themeStep s .toggleClick) evs) (.systemChange m) =
      themeRun (themeStep s .toggleClick) evs := by
  exact systemChange_noop _ m
    (stored_valid_run evs _ (stored_valid_after_click s))

/-- C9: a system-preference change never touches the closure variable
currentTheme; concretely, with nothing persisted and a light system
preference the page initializes to light, a system change to dark flips
only the displayed theme, and the next toggle click persists dark — the
opposite of the initially resolved light — so that the click leaves the
displayed theme unchanged at dark. -/
theorem systemChange_keeps_closure_theme :
    (∀ (s : ThemeState) (m : Bool),
      (themeStep s (.systemChange m)).currentTheme = s.currentTheme) ∧
    (initTheme none false).displayed = "light" ∧
    (initTheme none false).currentTheme = "light" ∧
    (themeStep (initTheme none false) (.systemChange true)).displayed = "dark" ∧
    (themeRun (initTheme none false)
      [.systemChange true, .toggleClick]).displayed = "dark" ∧
    (themeRun (initTheme none false)
      [.systemChange true, .toggleClick]).stored = some "dark" ∧
    (themeRun (initTheme none false)
        [.systemChange true, .toggleClick]).displayed =
      (themeStep (initTheme none false) (.systemChange true)).displayed := by
  refine ⟨?_, by decide, by decide, by decide, by decide, by decide, by decide⟩
  intro s m
  by_cases h : storedFalsy s.stored <;> simp [themeStep, h]

/-! ### Active navigation highlight: initActiveNavHighlight (lines 86-123) -/

/-- Geometry of one section element carrying an id: its offsetTop and its
offsetHeight. -/
structure PageSection where
  id : String
  top : ℕ
  height : ℕ
deriving DecidableEq, Repr

/-- A navigation link: its href attribute paired with the presence of the
active class. -/
abbrev NavLink := String × Bool

/-- The inner forEach of lines 99-104 (and 110-115): remove the active
class from every link, then add it to the links whose href equals the given
anchor. -/
def setActiveOnly (links : List NavLink) (href : String) : List NavLink :=
  links.map fun l => (l.1, l.1 == href)

/-- The body of updateActiveNav (lines 90-117): scrollPosition is the
vertical scroll offset plus 100; every section whose half-open span
contains scrollPosition rewrites the active classes in iteration order;
finally, a scroll offset below 100 forces the home link active. -/
def updateActiveNav (sections : List PageSection) (scrollY : ℕ)
    (links : List NavLink) : List NavLink :=
  let scrollPosition := scrollY + 100
  let links1 := sections.foldl
    (fun ls sec =>
      if sec.top ≤ scrollPosition ∧ scrollPosition < sec.top + sec.height then
        ls.map fun l => (l.1, l.1 == "#" ++ sec.id)
      else ls)
    links
  if scrollY < 100 then
    links1.map fun l => (l.1, l.1 == "#home")
  else links1

/-- The last section in iteration order whose half-open span contains the
scroll position. -/
def lastMatchingSection (sections : List PageSection) (scrollPosition : ℕ) :
    Option PageSection :=
  sections.foldl
    (fun acc sec =>
      if sec.top ≤ scrollPosition ∧ scrollPosition < sec.top + sec.height then some sec
      else acc)
    none

/-- Interpretation of an accumulated match: no match leaves the links as
they are, a match activates exactly its anchor. -/
def applyMatch (acc : Option PageSection) (links : List NavLink) : List NavLink :=
  match acc with
  | none => links
  | some sec => setActiveOnly links ("#" ++ sec.id)

theorem setActiveOnly_map (links : List NavLink) (h h' : String) :
    setActiveOnly (links.map fun l => (l.1, l.1 == h)) h' = setActiveOnly links h' := by
  simp [setActiveOnly, List.map_map]

theorem setActiveOnly_applyMatch (acc : Option PageSection) (links : List NavLink)
    (h : String) : setActiveOnly (applyMatch acc links) h = setActiveOnly links h := by
  cases acc with
  | none => rfl
  | some sec => exact setActiveOnly_map links _ h

/-- The section fold of updateActiveNav computes the interpretation of the
last matching section. -/
theorem foldl_sections_applyMatch (sp : ℕ) (sections : List PageSection) :
    ∀ (acc : Option PageSection) (links : List NavLink),
      sections.foldl
          (fun ls sec =>
            if sec.top ≤ sp ∧ sp < sec.top + sec.height then
              ls.map fun l => (l.1, l.1 == "#" ++ sec.id)
            else ls)
          (applyMatch acc links) =
        applyMatch
          (sections.foldl
            (fun acc sec =>
              if sec.top ≤ sp ∧ sp < sec.top + sec.height then some sec else acc)
            acc)
          links := by
  induction sections with
  | nil => intro acc links; rfl
  | cons sec rest ih =>
    intro acc links
    by_cases hc : sec.top ≤ sp ∧ sp < sec.top + sec.height
    · simp only [List.foldl_cons, if_pos hc]
      have : (applyMatch acc links).map (fun l => (l.1, l.1 == "#" ++ sec.id)) =
          applyMatch (some sec) links := by
        simpa [setActiveOnly] using setActiveOnly_applyMatch acc links ("#" ++ sec.id)
      rw [this, ih]
    · simp only [List.foldl_cons, if_neg hc]
      exact ih acc links

/-- C2: one invocation of updateActiveNav (as happens on every scroll event
and once at initialization) marks active exactly the link of the last
section, in iteration order, whose half-open span contains the scroll
offset plus 100, deactivating all others; when no section matches the links
are left unchanged; and whenever the scroll offset is below 100 the home
link is forced active regardless of section bounds. -/
theorem updateActiveNav_spec (sections : List PageSection) (scrollY : ℕ)
    (links : List NavLink) :
    updateActiveNav sections scrollY links =
      if scrollY < 100 then setActiveOnly links "#home"
      else
        match lastMatchingSection sections (scrollY + 100) with
        | some sec => setActiveOnly links ("#" ++ sec.id)
        | none => links := by
  have hfold := foldl_sections_applyMatch (scrollY + 100) sections none links
  simp only [applyMatch] at hfold
  by_cases hs : scrollY < 100
  · simp only [updateActiveNav, lastMatchingSection, if_pos hs, hfold]
    cases List.foldl
        (fun acc sec =>
          if sec.top ≤ scrollY + 100 ∧ scrollY + 100 < sec.top + sec.height then some sec
          else acc)
        none sections with
    | none => rfl
    | some sec => simp [setActiveOnly, List.map_map]
  · simp only [updateActiveNav, lastMatchingSection, if_neg hs, hfold]
    cases List.foldl
        (fun acc sec =>
          if sec.top ≤ scrollY + 100 ∧ scrollY + 100 < sec.top + sec.height then some sec
          else acc)
        none sections with
    | none => rfl
    | some sec => rfl

/-! ### Contact form validation: initFormValidation, isValidEmail
(script.js lines 200-261) -/

/-- Characters admitted by each block of the email regular expression of
line 259: anything except whitespace and the at sign. -/
def emailChar (c : Char) : Bool := !c.isWhitespace && c != '@'

/-- The test of the regular expression of isValidEmail (line 259), which
demands the whole string to be one-or-more non-space-non-at characters, an
at sign, one-or-more, a dot, one-or-more. Splitting at the at sign must
give exactly two pieces (so exactly one at sign, and no at sign in any
block); the piece before it is the first block; the piece after it splits
further at any interior dot into the second and third block, so it must
contain a dot that is neither its first nor its last character. -/
def isValidEmail (email : String) : Bool :=
  match splitOnChar '@' email.toList with
  | [localPart, domainPart] =>
    !localPart.isEmpty && localPart.all emailChar && domainPart.all emailChar &&
      ((domainPart.drop 1).dropLast.contains '.')
  | _ => false

/-- The four submitted field values of the contact form. -/
structure FormInput where
  name : String
  email : String
  subject : String
  message : String
deriving DecidableEq, Repr

/-- Lines 208-241 of the submit handler: trim the four fields, then run
the four rules in order, collecting every violation message and clearing
the isValid flag; no rule short-circuits another. Returns the isValid flag
together with the ordered list of violation messages. -/
def validateForm (f : FormInput) : Bool × List String :=
  let name := jsTrim f.name
  let email := jsTrim f.email
  let subject := jsTrim f.subject
  let message := jsTrim f.message
  let isValid := true
  let errors : List String := []
  let (isValid, errors) :=
    if name = "" then (false, errors ++ ["Name is required"])
    else (isValid, errors)
  let (isValid, errors) :=
    if email = "" then (false, errors ++ ["Email is required"])
    else if !isValidEmail email then
      (false, errors ++ ["Please enter a valid email address"])
    else (isValid, errors)
  let (isValid, errors) :=
    if subject = "" then (false, errors ++ ["Subject is required"])
    else (isValid, errors)
  let (isValid, errors) :=
    if message = "" then (false, errors ++ ["Message is required"])
    else if message.length < 10 then
      (false, errors ++ ["Message must be at least 10 characters long"])
    else (isValid, errors)
  (isValid, errors)

/-- The violation message contributed by the name rule, if any. -/
def nameError (f : FormInput) : Option String :=
  if jsTrim f.name = "" then some "Name is required" else none

/-- The violation message contributed by the email rule, if any. -/
def emailError (f : FormInput) : Option String :=
  if jsTrim f.email = "" then some "Email is required"
  else if !isValidEmail (jsTrim f.email) then
    some "Please enter a valid email address"
  else none

/-- The violation message contributed by the subject rule, if any. -/
def subjectError (f : FormInput) : Option String :=
  if jsTrim f.subject = "" then some "Subject is required" else none

/-- The violation message contributed by the message rule, if any. -/
def messageError (f : FormInput) : Option String :=
  if jsTrim f.message = "" then some "Message is required"
  else if (jsTrim f.message).length < 10 then
    some "Message must be at least 10 characters long"
  else none

/-- Kind of the message shown under the form by showFormMessage. -/
inductive MsgKind where
  | success : MsgKind
  | error : MsgKind
deriving DecidableEq, Repr

/-- State of the contact form: the four field contents and the message
currently displayed under it, if any. -/
structure FormState where
  name : String
  email : String
  subject : String
  message : String
  displayedMessage : Option (String × MsgKind)
deriving DecidableEq, Repr

/-- The four field values a submission reads from the form state. -/
def inputOf (s : FormState) : FormInput :=
  ⟨s.name, s.email, s.subject, s.message⟩

/-- The fixed success message of line 245. -/
def successText : String :=
  "Thank you for your message! I\x27ll get back to you soon."

/-- Lines 243-250: an accepted submission shows the fixed success message
and resets the form (clearing the four fields); a rejected one shows the
violation messages joined by the br tag and leaves the fields as
submitted. -/
def submitForm (s : FormState) : FormState :=
  if (validateForm (inputOf s)).1 then
    { name := "", email := "", subject := "", message := "",
      displayedMessage := some (successText, MsgKind.success) }
  else
    { s with displayedMessage := some
                (String.intercalate "<br>" (validateForm (inputOf s)).2, MsgKind.error) }

/-- The isValid flag is set exactly when no violation was collected. -/
theorem validateForm_valid_iff (f : FormInput) :
    (validateForm f).1 = true ↔ (validateForm f).2 = [] := by
  unfold validateForm
  by_cases h1 : jsTrim f.name = "" <;>
    by_cases h2 : jsTrim f.email = "" <;>
      by_cases h3 : isValidEmail (jsTrim f.email) = true <;>
        by_cases h4 : jsTrim f.subject = "" <;>
          by_cases h5 : jsTrim f.message = "" <;>
            by_cases h6 : (jsTrim f.message).length < 10 <;>
              simp [h1, h2, h3, h4, h5, h6]

/-- C3: every submission evaluates the four trimmed-field rules
independently, and the collected violation list is exactly the violated
rules' messages in the fixed order name, email, subject, message; when at
least one rule is violated the displayed error text is their concatenation
joined by the br tag; the all-empty submission yields exactly the four
messages in that order, and the email a-at-b without a dot yields exactly
the email violation. -/
theorem formValidation_rules (f : FormInput) :
    (validateForm f).2 =
      [nameError f, emailError f, subjectError f, messageError f].filterMap id ∧
    ((validateForm f).2 ≠ [] →
      ∀ s : FormState, inputOf s = f →
        (submitForm s).displayedMessage =
          some (String.intercalate "<br>" (validateForm f).2, MsgKind.error)) ∧
    (validateForm ⟨"", "", "", ""⟩).2 =
      ["Name is required", "Email is required", "Subject is required",
        "Message is required"] ∧
    (validateForm ⟨"Ann", "a@b", "Hi", "0123456789"⟩).2 =
      ["Please enter a valid email address"] := by
  refine ⟨?_, ?_, by decide, by decide⟩
  · unfold validateForm nameError emailError subjectError messageError
    by_cases h1 : jsTrim f.name = "" <;>
      by_cases h2 : jsTrim f.email = "" <;>
        by_cases h3 : isValidEmail (jsTrim f.email) = true <;>
          by_cases h4 : jsTrim f.subject = "" <;>
            by_cases h5 : jsTrim f.message = "" <;>
              by_cases h6 : (jsTrim f.message).length < 10 <;>
                simp [h1, h2, h3, h4, h5, h6]
  · intro herr s hs
    rw [← hs] at herr ⊢
    have hv : ¬((validateForm (inputOf s)).1 = true) :=
      fun hval => herr ((validateForm_valid_iff _).mp hval)
    simp [submitForm, hv]

/-- Witness for the hypotheses of the second part of C3, at the all-empty
submission. -/
theorem formValidation_rules_witness :
    (validateForm ⟨"", "", "", ""⟩).2 ≠ [] ∧
    inputOf ⟨"", "", "", "", none⟩ = ⟨"", "", "", ""⟩ ∧
    (submitForm ⟨"", "", "", "", none⟩).displayedMessage =
      some (String.intercalate "<br>" (validateForm ⟨"", "", "", ""⟩).2,
        MsgKind.error) :=
  ⟨by decide, rfl,
    (formValidation_rules ⟨"", "", "", ""⟩).2.1 (by decide)
      ⟨"", "", "", "", none⟩ rfl⟩

/-- C4: a submission is accepted exactly when no rule is violated; on
acceptance the fixed success message is displayed and the four fields are
cleared, on rejection the joined violation text is displayed and the fields
keep their submitted contents. -/
theorem formSubmission_outcome (s : FormState) :
    ((validateForm (inputOf s)).1 = true ↔ (validateForm (inputOf s)).2 = []) ∧
    submitForm s =
      (if (validateForm (inputOf s)).2 = [] then
        { name := "", email := "", subject := "", message := "",
          displayedMessage := some (successText, MsgKind.success) }
      else
        { s with displayedMessage := some
                    (String.intercalate "<br>" (validateForm (inputOf s)).2,
                      MsgKind.error) }) := by
  refine ⟨validateForm_valid_iff _, ?_⟩
  by_cases h : (validateForm (inputOf s)).1 = true
  · rw [if_pos ((validateForm_valid_iff _).mp h)]
    simp [submitForm, h]
  · rw [if_neg fun he => h ((validateForm_valid_iff _).mpr he)]
    simp [submitForm, h]

/-! ### Counter animation: animateCounter inside initCounterAnimation
(script.js lines 367-401) -/

/-- Line 371: parseInt applied to the element text with every non-digit
removed. An absent value models the NaN that parseInt returns on the empty
string, that is on a text without any digit. -/
def parseIntDigits (text : String) : Option ℕ :=
  let digits := text.toList.filter Char.isDigit
  if digits.isEmpty then none
  else some (digits.foldl (fun n c => 10 * n + (c.toNat - '0'.toNat)) 0)

/-- Line 372: the element text with every digit removed. -/
def counterSuffix (text : String) : String :=
  String.mk (text.toList.filter fun c => !c.isDigit)

/-- Line 375: the fixed total duration of the animation in milliseconds. -/
def duration : ℚ := 2000

/-- Line 376: the interval between two display updates in milliseconds. -/
def stepTime : ℚ := duration / 50

/-- State of one running counter animation: the accumulated current value,
the text currently displayed by the element, and whether the interval timer
has been cleared. -/
structure CounterState where
  current : ℚ
  displayed : String
  stopped : Bool
deriving DecidableEq, Repr

/-- The element state before the first tick: current is 0 and the element
still shows its original text. -/
def counterInit (text : String) : CounterState :=
  { current := 0, displayed := text, stopped := false }

/-- Lines 378-386, one setInterval tick: add the increment target divided
by 50 to current; when current has reached the target, display the exact
target followed by the suffix and clear the timer, otherwise display the
floor of current followed by the suffix. With an absent target (the NaN
case) the comparison is always false, the sum stays NaN and the element
displays NaN followed by the suffix; a cleared timer receives no further
ticks, modelled by an absorbing state. -/
def counterTick (target : Option ℕ) (suffix : String) (s : CounterState) :
    CounterState :=
  if s.stopped then s
  else
    match target with
    | some t =>
      let current := s.current + (t : ℚ) / 50
      if (t : ℚ) ≤ current then
        { current := current, displayed := toString t ++ suffix, stopped := true }
      else
        { current := current, displayed := toString ⌊current⌋ ++ suffix,
          stopped := false }
    | none =>
      { s with displayed := "NaN" ++ suffix }

/-- The state after n ticks of the animation started on the given element
text. -/
def counterRun (text : String) (n : ℕ) : CounterState :=
  (counterTick (parseIntDigits text) (counterSuffix text))^[n] (counterInit text)

theorem counterTick_stopped (target : Option ℕ) (suffix : String)
    (s : CounterState) (h : s.stopped = true) : counterTick target suffix s = s := by
  simp [counterTick, h]

theorem counterTick_iterate_stopped (target : Option ℕ) (suffix : String)
    (s : CounterState) (h : s.stopped = true) :
    ∀ n, (counterTick target suffix)^[n] s = s := by
  intro n
  induction n with
  | zero => rfl
  | succ n ih => rw [Function.iterate_succ_apply', ih, counterTick_stopped _ _ _ h]

/-- Before the fiftieth tick the accumulated value has not reached a
positive target. -/
theorem counter_not_done (t k : ℕ) (ht : 0 < t) (hk : k < 50) :
    ¬((t : ℚ) ≤ (k : ℚ) * t / 50) := by
  rw [not_le, div_lt_iff₀ (by norm_num : (0 : ℚ) < 50)]
  have htq : (0 : ℚ) < t := by exact_mod_cast ht
  calc (k : ℚ) * t < 50 * t := mul_lt_mul_of_pos_right (by exact_mod_cast hk) htq
    _ = t * 50 := by ring

/-- The first forty-nine ticks on a positive target: the accumulated value
is k times the increment, the timer is still running, and from the first
tick on the element shows the floor of the accumulated value followed by
the suffix. -/
theorem counter_iterate_lt (t : ℕ) (suffix d : String) (ht : 0 < t) :
    ∀ k, k < 50 →
      (counterTick (some t) suffix)^[k] ⟨0, d, false⟩ =
        ⟨(k : ℚ) * t / 50,
          if k = 0 then d else toString ⌊(k : ℚ) * t / 50⌋ ++ suffix, false⟩ := by
  intro k
  induction k with
  | zero => intro _; simp
  | succ k ih =>
    intro hk
    rw [Function.iterate_succ_apply', ih (Nat.lt_of_succ_lt hk)]
    have hcur : (k : ℚ) * t / 50 + (t : ℚ) / 50 = ((k : ℚ) + 1) * t / 50 := by
      ring
    have hnd : ((k : ℚ) + 1) * t / 50 < (t : ℚ) := by
      have h := counter_not_done t (k + 1) ht hk
      rw [not_le] at h
      push_cast at h
      exact h
    simp [counterTick, hcur, hnd, not_le.mpr hnd]

/-- The fiftieth tick on a positive target reaches the target exactly and
clears the timer. -/
theorem counter_iterate_50 (t : ℕ) (suffix d : String) (ht : 0 < t) :
    (counterTick (some t) suffix)^[50] ⟨0, d, false⟩ =
      ⟨(t : ℚ), toString t ++ suffix, true⟩ := by
  rw [show (50 : ℕ) = 49 + 1 from rfl, Function.iterate_succ_apply',
    counter_iterate_lt t suffix d ht 49 (by norm_num)]
  have hcur : (49 : ℚ) * t / 50 + (t : ℚ) / 50 = (t : ℚ) := by ring
  have hc2 : (t : ℚ) ≤ (49 : ℚ) * t / 50 + (t : ℚ) / 50 := le_of_eq hcur.symm
  simp [counterTick, hcur, hc2]

/-- Fifty ticks stop the animation for every parsed target, the zero target
included. -/
theorem counter_stops (t : ℕ) (suffix d : String) :
    ((counterTick (some t) suffix)^[50] ⟨0, d, false⟩).stopped = true := by
  rcases Nat.eq_zero_or_pos t with h0 | hpos
  · subst h0
    rw [show (50 : ℕ) = 49 + 1 from rfl, Function.iterate_succ_apply]
    have h1 : counterTick (some 0) suffix ⟨0, d, false⟩ =
        ⟨0, toString (0 : ℕ) ++ suffix, true⟩ := by
      simp [counterTick]
    rw [h1, counterTick_iterate_stopped _ _ _ rfl]
  · rw [counter_iterate_50 t suffix d hpos]

/-- Ticks on an absent target never stop the timer and, from the first tick
on, display NaN followed by the suffix. -/
theorem counter_iterate_none (suffix : String) (s0 : CounterState)
    (h : s0.stopped = false) :
    ∀ n, ((counterTick none suffix)^[n] s0).stopped = false ∧
      (1 ≤ n → ((counterTick none suffix)^[n] s0).displayed = "NaN" ++ suffix) := by
  intro n
  induction n with
  | zero => exact ⟨h, by omega⟩
  | succ n ih =>
    rw [Function.iterate_succ_apply']
    refine ⟨?_, fun _ => ?_⟩ <;> simp [counterTick, ih.1]

/-- A text containing no digit parses to the NaN target. -/
theorem parseIntDigits_none_iff (text : String) :
    parseIntDigits text = none ↔ text.toList.any Char.isDigit = false := by
  simp [parseIntDigits, List.isEmpty_iff, List.filter_eq_nil_iff, List.any_eq_true]

/-- C7: the display is updated every stepTime = 2000 divided by 50 = 40
milliseconds; on a positive parsed target the accumulated value starts at
0 and grows by target divided by 50 per tick, each of the first forty-nine
updates shows its floor followed by the suffix, and the fiftieth update
shows exactly the target followed by the suffix and stops the timer. For
the element text 250 followed by a plus sign the target is 250 and the
suffix the plus sign, update k of the first forty-nine shows five times k
with the plus sign, update fifty shows exactly 250 with the plus sign, and
no further update happens: exactly fifty display updates, the final frame
exact. -/
theorem counterAnimation_spec :
    stepTime = 40 ∧
    (∀ (t : ℕ) (suffix d : String), 0 < t →
      (∀ k, 1 ≤ k → k < 50 →
        ((counterTick (some t) suffix)^[k] ⟨0, d, false⟩).displayed =
          toString ⌊(k : ℚ) * t / 50⌋ ++ suffix ∧
        ((counterTick (some t) suffix)^[k] ⟨0, d, false⟩).stopped = false) ∧
      ((counterTick (some t) suffix)^[50] ⟨0, d, false⟩).displayed =
        toString t ++ suffix ∧
      ((counterTick (some t) suffix)^[50] ⟨0, d, false⟩).stopped = true) ∧
    parseIntDigits "250+" = some 250 ∧
    counterSuffix "250+" = "+" ∧
    (counterInit "250+").current = 0 ∧
    (∀ k, 1 ≤ k → k ≤ 49 →
      (counterRun "250+" k).displayed = toString (5 * (k : ℤ)) ++ "+" ∧
      (counterRun "250+" k).stopped = false) ∧
    (counterRun "250+" 50).displayed = "250+" ∧
    (counterRun "250+" 50).stopped = true ∧
    (∀ n, 50 ≤ n → counterRun "250+" n = counterRun "250+" 50) := by
  have hparse : parseIntDigits "250+" = some 250 := by decide
  have hsuffix : counterSuffix "250+" = "+" := by decide
  have hrun : ∀ n, counterRun "250+" n =
      (counterTick (some 250) "+")^[n] ⟨0, "250+", false⟩ := by
    intro n
    unfold counterRun
    rw [hparse, hsuffix]
    rfl
  refine ⟨by norm_num [stepTime, duration], ?_, hparse, hsuffix, rfl, ?_, ?_, ?_, ?_⟩
  · intro t suffix d ht
    refine ⟨fun k hk1 hk50 => ?_, ?_, ?_⟩
    · rw [counter_iterate_lt t suffix d ht k hk50]
      exact ⟨by simp [Nat.pos_iff_ne_zero.mp hk1], rfl⟩
    · rw [counter_iterate_50 t suffix d ht]
    · rw [counter_iterate_50 t suffix d ht]
  · intro k hk1 hk49
    rw [hrun, counter_iterate_lt 250 "+" "250+" (by norm_num) k (by omega)]
    have hfloor : ⌊(k : ℚ) * 250 / 50⌋ = 5 * (k : ℤ) := by
      have h5 : (k : ℚ) * 250 / 50 = ((5 * k : ℕ) : ℚ) := by push_cast; ring
      rw [h5, Int.floor_natCast]
      push_cast
      ring
    refine ⟨?_, rfl⟩
    simp [Nat.pos_iff_ne_zero.mp hk1, hfloor]
  · rw [hrun, counter_iterate_50 250 "+" "250+" (by norm_num)]
    rfl
  · rw [hrun, counter_iterate_50 250 "+" "250+" (by norm_num)]
  · intro n hn
    rw [hrun, hrun, ← Nat.sub_add_cancel hn, Function.iterate_add_apply]
    exact counterTick_iterate_stopped _ _ _
      (by rw [counter_iterate_50 250 "+" "250+" (by norm_num)]) (n - 50)

/-- Witness for the hypotheses of C7: the positive target 250 and the
seventh display update. -/
theorem counterAnimation_spec_witness :
    (0 < 250 ∧ 1 ≤ 7 ∧ 7 < 50 ∧ 7 ≤ 49) ∧
    ((counterTick (some 250) "+")^[7] ⟨0, "250+", false⟩).displayed =
      toString ⌊(7 : ℚ) * 250 / 50⌋ ++ "+" ∧
    (counterRun "250+" 7).displayed = toString (5 * (7 : ℤ)) ++ "+" ∧
    (counterRun "250+" 50).stopped = true :=
  ⟨by omega,
    ((counterAnimation_spec.2.1 250 "+" "250+" (by norm_num)).1 7 (by norm_num)
      (by norm_num)).1,
    (counterAnimation_spec.2.2.2.2.2.1 7 (by norm_num) (by norm_num)).1,
    counterAnimation_spec.2.2.2.2.2.2.2.1⟩

/-- C10: the interval timer of the counter is eventually cleared exactly
when the element text contains at least one digit; on a digit-free text the
parsed target is NaN, the timer is never cleared, and from the first tick
on the element displays NaN followed by the non-digit suffix. -/
theorem counterTermination_iff (text : String) :
    ((∃ n, (counterRun text n).stopped = true) ↔
      text.toList.any Char.isDigit = true) ∧
    (text.toList.any Char.isDigit = false →
      ∀ n, 1 ≤ n →
        (counterRun text n).displayed = "NaN" ++ counterSuffix text ∧
        (counterRun text n).stopped = false) := by
  have hnone : parseIntDigits text = none →
      ∀ n, ((counterRun text n).stopped = false ∧
        (1 ≤ n → (counterRun text n).displayed = "NaN" ++ counterSuffix text)) := by
    intro hp n
    unfold counterRun
    rw [hp]
    exact counter_iterate_none (counterSuffix text) (counterInit text) rfl n
  constructor
  · constructor
    · intro ⟨n, hn⟩
      by_contra hany
      have hfalse : text.toList.any Char.isDigit = false := by
        cases h : text.toList.any Char.isDigit with
        | false => rfl
        | true => exact absurd h hany
      have := (hnone ((parseIntDigits_none_iff text).mpr hfalse) n).1
      rw [this] at hn
      exact Bool.false_ne_true hn
    · intro hany
      cases hp : parseIntDigits text with
      | none =>
        rw [(parseIntDigits_none_iff text).mp hp] at hany
        exact absurd hany (by simp)
      | some t =>
        refine ⟨50, ?_⟩
        unfold counterRun
        rw [hp]
        exact counter_stops t (counterSuffix text) text
  · intro hfalse n hn
    have h := hnone ((parseIntDigits_none_iff text).mpr hfalse) n
    exact ⟨h.2 hn, h.1⟩

/-- Witness for the hypotheses of C10: a digit-free text never terminates
and keeps displaying NaN, a text with digits terminates. -/
theorem counterTermination_iff_witness :
    ("+*".toList.any Char.isDigit = false ∧ 1 ≤ 2) ∧
    ((counterRun "+*" 2).displayed = "NaN" ++ counterSuffix "+*" ∧
      (counterRun "+*" 2).stopped = false) ∧
    (∃ n, (counterRun "250+" n).stopped = true) :=
  ⟨⟨by decide, by decide⟩,
    (counterTermination_iff "+*").2 (by decide) 2 (by decide),
    (counterTermination_iff "250+").1.mpr (by decide)⟩

/-! ### One-shot visibility observers: initScrollAnimations (lines 167-191)
and the observer of initCounterAnimation (lines 389-400) -/

/-- Per-element state of the fade-in observer: whether the observer still
observes the element, whether the visible class is present, and how many
times the reveal has fired. -/
structure FadeState where
  observed : Bool
  visible : Bool
  animations : ℕ
deriving DecidableEq, Repr

/-- A fade-in element as first observed: watched, not yet visible, never
animated. -/
def fadeInit : FadeState := ⟨true, false, 0⟩

/-- Lines 177-185, one intersection notification: while the element is
observed, an intersecting entry adds the visible class (counted as one
animation) and unobserves the element; an unobserved element receives no
further effect. -/
def fadeStep (s : FadeState) (isIntersecting : Bool) : FadeState :=
  if s.observed && isIntersecting then
    { observed := false, visible := true, animations := s.animations + 1 }
  else s

/-- The fade-in state after a sequence of intersection notifications. -/
def fadeRun (evs : List Bool) : FadeState := evs.foldl fadeStep fadeInit

/-- Per-element state of the counter observer: whether the counted marker
class is present and how many times animateCounter has been started. -/
structure CountedState where
  counted : Bool
  animations : ℕ
deriving DecidableEq, Repr

/-- A stat-number element as first observed: no marker, never animated. -/
def countedInit : CountedState := ⟨false, 0⟩

/-- Lines 389-396, one intersection notification: an intersecting entry
without the counted marker sets the marker and starts the animation once;
everything else is a no-op. -/
def countedStep (s : CountedState) (isIntersecting : Bool) : CountedState :=
  if isIntersecting && !s.counted then
    { counted := true, animations := s.animations + 1 }
  else s

/-- The counter-observer state after a sequence of intersection
notifications. -/
def countedRun (evs : List Bool) : CountedState := evs.foldl countedStep countedInit

theorem fadeStep_unobserved (s : FadeState) (h : s.observed = false) (e : Bool) :
    fadeStep s e = s := by
  simp [fadeStep, h]

theorem fade_foldl_unobserved (s : FadeState) (h : s.observed = false) :
    ∀ evs : List Bool, evs.foldl fadeStep s = s := by
  intro evs
  induction evs with
  | nil => rfl
  | cons e evs ih => rw [List.foldl_cons, fadeStep_unobserved s h e, ih]

theorem fadeStep_true_unobserves (s : FadeState) :
    (fadeStep s true).observed = false := by
  cases h : s.observed <;> simp [fadeStep, h]

theorem fade_invariant (evs : List Bool) :
    ∀ s : FadeState,
      ((s.observed = true → s.animations = 0) ∧ s.animations ≤ 1) →
      ((evs.foldl fadeStep s).observed = true →
        (evs.foldl fadeStep s).animations = 0) ∧
      (evs.foldl fadeStep s).animations ≤ 1 := by
  induction evs with
  | nil => intro s h; exact h
  | cons e evs ih =>
    intro s h
    rw [List.foldl_cons]
    apply ih
    cases ho : s.observed with
    | false => simpa [fadeStep, ho] using h
    | true =>
      cases e with
      | false => simpa [fadeStep, ho] using h
      | true => simp [fadeStep, ho, h.1 ho]

theorem countedStep_nocount (s : CountedState) (h : s.counted = true) (e : Bool) :
    countedStep s e = s := by
  simp [countedStep, h]

theorem counted_foldl_counted (s : CountedState) (h : s.counted = true) :
    ∀ evs : List Bool, evs.foldl countedStep s = s := by
  intro evs
  induction evs with
  | nil => rfl
  | cons e evs ih => rw [List.foldl_cons, countedStep_nocount s h e, ih]

theorem countedStep_true_counts (s : CountedState) :
    (countedStep s true).counted = true := by
  cases h : s.counted <;> simp [countedStep, h]

theorem counted_invariant (evs : List Bool) :
    ∀ s : CountedState,
      ((s.counted = false → s.animations = 0) ∧ s.animations ≤ 1) →
      ((evs.foldl countedStep s).counted = false →
        (evs.foldl countedStep s).animations = 0) ∧
      (evs.foldl countedStep s).animations ≤ 1 := by
  induction evs with
  | nil => intro s h; exact h
  | cons e evs ih =>
    intro s h
    rw [List.foldl_cons]
    apply ih
    cases ho : s.counted with
    | true => simpa [countedStep, ho] using h
    | false =>
      cases e with
      | false => simpa [countedStep, ho] using h
      | true => simp [countedStep, ho, h.1 ho]

/-- C8: over every sequence of intersection notifications a fade-in element
animates at most once, and after its first intersecting notification the
element is unobserved so every later notification leaves its state exactly
as it was; likewise a stat-number element animates at most once, and after
its first intersecting notification the counted marker freezes its state
against every later notification. -/
theorem oneShot_animation_invariant :
    (∀ evs : List Bool, (fadeRun evs).animations ≤ 1) ∧
    (∀ evs₁ evs₂ : List Bool,
      fadeRun (evs₁ ++ true :: evs₂) = fadeRun (evs₁ ++ [true])) ∧
    (∀ evs : List Bool, (countedRun evs).animations ≤ 1) ∧
    (∀ evs₁ evs₂ : List Bool,
      countedRun (evs₁ ++ true :: evs₂) = countedRun (evs₁ ++ [true])) := by
  refine ⟨?_, ?_, ?_, ?_⟩
  · intro evs
    exact (fade_invariant evs fadeInit ⟨fun _ => rfl, Nat.zero_le 1⟩).2
  · intro evs₁ evs₂
    show (evs₁ ++ true :: evs₂).foldl fadeStep fadeInit =
      (evs₁ ++ [true]).foldl fadeStep fadeInit
    rw [List.foldl_append, List.foldl_append, List.foldl_cons, List.foldl_cons,
      List.foldl_nil]
    exact fade_foldl_unobserved _ (fadeStep_true_unobserves _) evs₂
  · intro evs
    exact (counted_invariant evs countedInit ⟨fun _ => rfl, Nat.zero_le 1⟩).2
  · intro evs₁ evs₂
    show (evs₁ ++ true :: evs₂).foldl countedStep countedInit =
      (evs₁ ++ [true]).foldl countedStep countedInit
    rw [List.foldl_append, List.foldl_append, List.foldl_cons, List.foldl_cons,
      List.foldl_nil]
    exact counted_foldl_counted _ (countedStep_true_counts _) evs₂

end Portfolio
